import Mathlib

/-!
Shallow embedding of the sticker-generation single-page app
(`src/index.tsx`) and proofs about its workflow controller,
generation client, prompt construction, variant parsing and
metadata export.

Conventions of the embedding:
* React `useState` fields become fields of `AppState`; each event
  handler becomes a state-transformation function.
* The external generative-image service is modelled by an oracle:
  the outcome of one call is an `Except String (List RespPart)` — either
  the thrown error's message, or the parts of the first candidate's
  content (`response.candidates?.[0]?.content?.parts ?? []`).
* JavaScript strings are Lean `String`s; `split(',')` and `trim` are
  modelled character-by-character (`splitComma`, `trimChars`; whitespace
  is the ASCII whitespace the app's inputs use), `filter(Boolean)` on
  strings by filtering out `""`, and `slice(0, n)` by `List.take n`.
-/

/-- `const API_MODEL = 'gemini-2.5-flash-image-preview'`. -/
def API_MODEL : String := "gemini-2.5-flash-image-preview"

/-- `const MAX_CUSTOM_VARIANTS = 12`. -/
def MAX_CUSTOM_VARIANTS : Nat := 12

/-- The `STYLES` lookup table mapping a preset key to its display label. -/
def STYLES : List (String × String) :=
  [("photorealistic", "超擬真"), ("cute", "可愛"), ("abstract", "抽象"),
   ("picasso", "畢卡索"), ("vangogh", "梵谷"), ("davinci", "達文西"),
   ("monalisa", "蒙娜麗莎"), ("mosaic", "馬賽克"), ("custom", "其他...")]

/-- `STYLES[style as keyof typeof STYLES]` — lookup of a preset's label
(the UI only ever stores keys of `STYLES` in `style`; an absent key would
be `undefined` in JS, modelled by `""`). -/
def styleLookup (key : String) : String :=
  (STYLES.lookup key).getD ""

/-- One `RespPart` of a service response: optional `inlineData` carrying
`(mimeType, data)`. -/
structure RespPart where
  inlineData : Option (String × String)
  deriving DecidableEq, Repr

/-- The outcome of one `ai.models.generateContent` round trip: the thrown
error's message, or the parts list scanned by `generateImage`. -/
abbrev GenResponse := Except String (List RespPart)

/-- The uploaded image held in `uploadedImage` state. -/
structure UploadedImage where
  url : String
  base64 : String
  mimeType : String
  deriving DecidableEq, Repr

/-- `appStep` state: `'upload' | 'base_generated' | 'variants_generated'`. -/
inductive AppStep
  | upload
  | base_generated
  | variants_generated
  deriving DecidableEq, Repr

/-- One element of the `variants` state array:
`{ id: string, uri: string, label: string }`. -/
structure Variant where
  id : String
  uri : String
  label : String
  deriving DecidableEq, Repr

/-- The `App` component's state (one field per `useState`; `ai` is the
memoised client, present exactly when the API key was set, modelled by
the boolean `aiReady`). -/
structure AppState where
  uploadedImage : Option UploadedImage
  consentChecked : Bool
  style : String
  customStyle : String
  styleStrength : Nat
  userPrompt : String
  lockCharacter : Bool
  faceConsistency : Bool
  textIntent : String
  textMode : String
  customVariantsPrompt : String
  isLoading : Bool
  loadingMessage : String
  error : Option String
  appStep : AppStep
  baseSticker : Option String
  variants : List Variant
  aiReady : Bool
  deriving DecidableEq, Repr

/-- `const stylePrompt = style === 'custom' ? customStyle : STYLES[style]`. -/
def stylePrompt (st : AppState) : String :=
  if st.style = "custom" then st.customStyle else styleLookup st.style

/-- Scan of `response.candidates?.[0]?.content?.parts ?? []`: the first
part whose `inlineData` is present. -/
def firstInlineData : List RespPart → Option (String × String)
  | [] => none
  | p :: ps =>
    match p.inlineData with
    | some d => some d
    | none => firstInlineData ps

/-- `generateImage(promptText)`: returns `(result, errorEvent)` where
`result` is the value the promise resolves to (`some dataUri` or `none`)
and `errorEvent` is the message passed to `setError` if it was called.
Mirrors the source: missing client or image sets a readiness error and
returns null; a response whose parts hold inline data yields
`data:<mime>;base64,<data>` from the first such part; a response with no
inline part throws `API 未返回圖片。`, which the surrounding catch turns
into `圖片生成失敗: <message>` like any other thrown error. The prompt
text never affects the outcome. -/
def generateImage (aiReady hasImage : Bool) (_promptText : String)
    (resp : GenResponse) : Option String × Option String :=
  if !aiReady || !hasImage then
    (none, some "AI 服務未就緒或未上傳圖片。")
  else
    match resp with
    | .error msg => (none, some ("圖片生成失敗: " ++ msg))
    | .ok parts =>
      match firstInlineData parts with
      | some (mt, d) => (some ("data:" ++ mt ++ ";base64," ++ d), none)
      | none => (none, some ("圖片生成失敗: " ++ "API 未返回圖片。"))

/-- The base-sticker prompt template of `handleGenerateBase`. -/
def basePrompt (st : AppState) : String :=
  "Generate a sticker with a transparent background. The subject should be based on the provided image, but rendered in a \"" ++
  stylePrompt st ++ "\" style. " ++
  (if st.userPrompt ≠ "" then
    "Incorporate this description: \"" ++ st.userPrompt ++ "\"." else "") ++
  " Style strength should be around " ++ toString st.styleStrength ++ "%. " ++
  (if st.lockCharacter then "Maintain character consistency." else "") ++ " " ++
  (if st.faceConsistency then "Pay close attention to face consistency." else "")

/-- The per-action variant prompt template of `generateVariants`. -/
def variantPrompt (st : AppState) (action : String) : String :=
  "Based on the character in the image, create a sticker of them showing the emotion or action: \"" ++
  action ++ "\". The style should be \"" ++ stylePrompt st ++
  "\" with a transparent background. " ++
  (if st.userPrompt ≠ "" then
    "Incorporate this general theme: \"" ++ st.userPrompt ++ "\"." else "") ++
  " " ++
  (if st.lockCharacter then "Maintain character consistency." else "") ++ " " ++
  (if st.faceConsistency then "Pay close attention to face consistency." else "")

/-- `resetGeneration()`: back to the `upload` step, clearing results. -/
def resetGeneration (st : AppState) : AppState :=
  { st with appStep := .upload, baseSticker := none, variants := [] }

/-- The success path of `handleFileChange` once `fileToBase64` resolved:
store the new image, clear the error, then `resetGeneration()`. -/
def handleFileChangeSuccess (st : AppState) (img : UploadedImage) : AppState :=
  resetGeneration { st with uploadedImage := some img, error := none }

/-- The one `generateImage` call `handleGenerateBase` makes, on the base
prompt of the current settings. -/
def baseCall (st : AppState) (resp : GenResponse) :
    Option String × Option String :=
  generateImage st.aiReady st.uploadedImage.isSome (basePrompt st) resp

/-- `handleGenerateBase()`, with the service call's outcome supplied as
`resp`: clear the error, raise the loading flag and message, run
`generateImage` on the base prompt, store the sticker and advance to
`base_generated` on success, drop the loading flag. The final state is
recorded directly: `error` holds the call's error event (the preceding
`setError(null)` cleared it), `isLoading` has been raised and dropped
again, and the loading message persists. -/
def handleGenerateBase (st : AppState) (resp : GenResponse) : AppState :=
  let r := baseCall st resp
  let st1 := { st with error := r.2, isLoading := false,
                       loadingMessage := "正在生成您的主體貼圖..." }
  match r.1 with
  | some uri => { st1 with baseSticker := some uri, appStep := .base_generated }
  | none => st1

/-- The loop body state of `generateVariants`: accumulated
`generatedVariants`, the current `error`, and the `loadingMessage`. -/
structure VarLoop where
  gen : List Variant
  error : Option String
  loadingMessage : String
  deriving DecidableEq, Repr

/-- The `for (const action of actions)` loop of `generateVariants`; the
`i`-th call's outcome is `oracle i`. A successful call appends
`{ id: v<n+1>, uri, label: action }`; a failed call leaves the list
alone and sets the error to `生成 "<action>" 變化款失敗。` (the message
`generateImage` itself set is overwritten by this one). -/
def runVariantLoop (aiReady hasImage : Bool) (vp : String → String)
    (oracle : Nat → GenResponse) : List String → Nat → VarLoop → VarLoop
  | [], _, acc => acc
  | action :: rest, i, acc =>
    let lm := "正在生成變化款: " ++ action ++ "..."
    let r := generateImage aiReady hasImage (vp action) (oracle i)
    match r.1 with
    | some uri =>
      runVariantLoop aiReady hasImage vp oracle rest (i + 1)
        { gen := acc.gen ++ [⟨"v" ++ toString (acc.gen.length + 1), uri, action⟩],
          error := acc.error, loadingMessage := lm }
    | none =>
      runVariantLoop aiReady hasImage vp oracle rest (i + 1)
        { gen := acc.gen,
          error := some ("生成 \"" ++ action ++ "\" 變化款失敗。"),
          loadingMessage := lm }

/-- `generateVariants(actions)` with the `i`-th service call's outcome
supplied as `oracle i`: clears the error and the variants, raises the
loading flag, runs the per-action loop, then stores the collected
variants, moves to `variants_generated` and drops the loading flag. The
final state is recorded directly: the loop starts from a cleared error
(`setError(null)` ran first) and the caller's loading message, and its
outcome overwrites `variants`, `error` and `loadingMessage`. -/
def generateVariants (st : AppState) (actions : List String)
    (oracle : Nat → GenResponse) : AppState :=
  let fin := runVariantLoop st.aiReady st.uploadedImage.isSome
    (variantPrompt st) oracle actions 0
    ⟨[], none, st.loadingMessage⟩
  { st with variants := fin.gen, error := fin.error,
            loadingMessage := fin.loadingMessage,
            appStep := .variants_generated, isLoading := false }

/-- JavaScript `s.split(',')` on the character list: the comma-separated
fields, in order, empty fields included (`""` splits to `[""]`). -/
def splitComma : List Char → List (List Char)
  | [] => [[]]
  | c :: rest =>
    match splitComma rest with
    | [] => [[]]
    | cur :: parts =>
      if c = ',' then [] :: cur :: parts else (c :: cur) :: parts

/-- JavaScript `s.trim()` on the character list: strip leading and
trailing whitespace. -/
def trimChars (l : List Char) : List Char :=
  (((l.dropWhile Char.isWhitespace).reverse).dropWhile
    Char.isWhitespace).reverse

/-- The parsing pipeline of `handleGenerateCustomVariants`:
`split(',') → map trim → filter(Boolean) → slice(0, MAX_CUSTOM_VARIANTS)`. -/
def parseCustomVariants (s : String) : List String :=
  ((((splitComma s.toList).map (fun l => (trimChars l).asString)).filter
    (fun t => t ≠ "")).take MAX_CUSTOM_VARIANTS)

/-- `handleGenerateCustomVariants()`: parse the textarea; an empty parse
sets an error and returns before any call; otherwise set the loading
message and run `generateVariants` on the parsed actions. -/
def handleGenerateCustomVariants (st : AppState)
    (oracle : Nat → GenResponse) : AppState :=
  let actions := parseCustomVariants st.customVariantsPrompt
  if actions.isEmpty then
    { st with error := some "請輸入至少一個有效的情境。" }
  else
    generateVariants { st with loadingMessage := "正在生成自訂變化貼圖..." }
      actions oracle

/-- JSON scalar values occurring in the metadata document. -/
inductive MetaVal
  | str (s : String)
  | nat (n : Nat)
  | bool (b : Bool)
  deriving DecidableEq, Repr

/-- The document produced by `handleExportMetadata` as an ordered list of
JSON fields. `customStyle` is `style === 'custom' ? customStyle :
undefined`, and `JSON.stringify` drops `undefined`-valued fields, so the
field is present exactly when the style is `custom`. -/
def metadataFields (st : AppState) (timestamp : String) :
    List (String × MetaVal) :=
  [("style", .str st.style)] ++
  (if st.style = "custom" then [("customStyle", .str st.customStyle)]
   else []) ++
  [("styleStrength", .nat st.styleStrength),
   ("userPrompt", .str st.userPrompt),
   ("lockCharacter", .bool st.lockCharacter),
   ("faceConsistency", .bool st.faceConsistency),
   ("textIntent", .str st.textIntent),
   ("textMode", .str st.textMode),
   ("timestamp", .str timestamp),
   ("model", .str API_MODEL)]

/-- `const isGenerateButtonDisabled = !uploadedImage || !consentChecked
|| isLoading` — the `disabled` condition of the primary
`生成主體貼圖` button. -/
def isGenerateButtonDisabled (st : AppState) : Bool :=
  st.uploadedImage.isNone || !st.consentChecked || st.isLoading

/-- Whether the `重新生成` (regenerate base) button of the
`base_generated` confirmation area is rendered: the results panel shows
it only when not loading, a base sticker exists, and the step is
`base_generated`; the button element carries no `disabled` attribute. -/
def regenerateButtonShown (st : AppState) : Bool :=
  !st.isLoading && st.baseSticker.isSome && st.appStep == .base_generated

/-- Whether any point in the UI lets the user trigger
`handleGenerateBase`: the always-rendered primary button when its
`disabled` condition is false, or the regenerate button when shown. -/
def canTriggerGenerateBase (st : AppState) : Bool :=
  !(isGenerateButtonDisabled st) || regenerateButtonShown st

/-- The value a single `generateImage` call resolves to once the client
and image are present, as a function of the service response alone (the
prompt text never influences the outcome). -/
def callResult (r : GenResponse) : Option String :=
  (generateImage true true "" r).1

/-- The two optional consistency clauses shared verbatim by the base and
variant templates (separated by the space both templates interpolate). -/
def consistencyClauses (st : AppState) : String :=
  (if st.lockCharacter then "Maintain character consistency." else "") ++
  " " ++
  (if st.faceConsistency then "Pay close attention to face consistency." else "")

/-- Substring test on character lists (for concrete prompt inspection). -/
def hasInfix (needle : List Char) : List Char → Bool
  | [] => needle.isEmpty
  | c :: t => needle.isPrefixOf (c :: t) || hasInfix needle t

/-- A representative state right after a successful upload with consent
given: the `useState` initial values, plus an uploaded image and the
consent box checked, with a working API key. -/
def mkState : AppState where
  uploadedImage := some ⟨"blob:demo", "QkFTRTY0REFUQQ==", "image/png"⟩
  consentChecked := true
  style := "cute"
  customStyle := ""
  styleStrength := 70
  userPrompt := ""
  lockCharacter := true
  faceConsistency := false
  textIntent := ""
  textMode := "guide_only"
  customVariantsPrompt := "yes, no, ok, 生氣, 不要, 不可以, 考試100分, 敲木魚"
  isLoading := false
  loadingMessage := ""
  error := none
  appStep := .upload
  baseSticker := none
  variants := []
  aiReady := true

/-- A response whose first part carries inline image data. -/
def okPngResp (d : String) : GenResponse :=
  .ok [⟨some ("image/png", d)⟩]

/-- An oracle whose second call fails and whose other calls succeed. -/
def failSecondOracle : Nat → GenResponse :=
  fun i => if i = 1 then .error "quota exceeded" else okPngResp ("D" ++ toString i)

/-- The state after base and variant generation succeeded: step
`variants_generated`, with a base sticker and one variant on screen. -/
def stAfterVariants : AppState :=
  { mkState with appStep := .variants_generated,
                 baseSticker := some "data:image/png;base64,AAA",
                 variants := [⟨"v1", "data:image/png;base64,BBB", "跑步"⟩] }

/-- A `base_generated` state whose consent box was unchecked after the
base sticker had been produced. -/
def stConsentRevoked : AppState :=
  { mkState with consentChecked := false, appStep := .base_generated,
                 baseSticker := some "data:image/png;base64,AAA" }

/-- A custom-style state as in the metadata scenario: style `custom`,
custom style text `ink wash`. -/
def stInkWash : AppState :=
  { mkState with style := "custom", customStyle := "ink wash" }

/-- A preset-style state in which the user nevertheless typed a custom
style text. -/
def stPresetWithText : AppState :=
  { mkState with style := "cute", customStyle := "ink wash" }

/-- A state whose custom-variants textarea holds only commas and
whitespace. -/
def stBlankVariants : AppState :=
  { mkState with customVariantsPrompt := " , ,, ",
                 appStep := .variants_generated,
                 baseSticker := some "data:image/png;base64,AAA" }

/-- The first component of a `generateImage` call with client and image
present is determined by the response alone. -/
theorem fst_generateImage_eq_callResult (p : String) (r : GenResponse) :
    (generateImage true true p r).1 = callResult r := rfl

/-- The variant loop appends, for each action in order, exactly the
successful calls' outputs, labelled by their action. -/
theorem runVariantLoop_gen (vp : String → String) (oracle : Nat → GenResponse) :
    ∀ (actions : List String) (i : Nat) (acc : VarLoop),
    (runVariantLoop true true vp oracle actions i acc).gen.map
        (fun v => (v.label, v.uri)) =
      acc.gen.map (fun v => (v.label, v.uri)) ++
        (List.enumFrom i actions).filterMap (fun p =>
          (callResult (oracle p.1)).map (fun uri => (p.2, uri))) := by
  intro actions
  induction actions with
  | nil => intro i acc; simp [runVariantLoop]
  | cons action rest ih =>
    intro i acc
    simp only [runVariantLoop, fst_generateImage_eq_callResult]
    cases hc : callResult (oracle i) with
    | some uri =>
      rw [ih]
      simp [hc, List.enumFrom_cons, List.filterMap_cons]
    | none =>
      rw [ih]
      simp [hc, List.enumFrom_cons, List.filterMap_cons]

/-- The variant loop ends with an error recorded whenever it started with
one or some call in its range fails. -/
theorem runVariantLoop_error (vp : String → String) (oracle : Nat → GenResponse) :
    ∀ (actions : List String) (i : Nat) (acc : VarLoop),
    (acc.error.isSome = true ∨
      ∃ j, j < actions.length ∧ callResult (oracle (i + j)) = none) →
    (runVariantLoop true true vp oracle actions i acc).error.isSome = true := by
  intro actions
  induction actions with
  | nil =>
    intro i acc h
    cases h with
    | inl h => simpa [runVariantLoop] using h
    | inr h => obtain ⟨j, hj, _⟩ := h; simp at hj
  | cons action rest ih =>
    intro i acc h
    simp only [runVariantLoop, fst_generateImage_eq_callResult]
    cases hc : callResult (oracle i) with
    | some uri =>
      apply ih (i + 1)
      cases h with
      | inl h => exact Or.inl h
      | inr h =>
        obtain ⟨j, hj, hfail⟩ := h
        cases j with
        | zero => rw [Nat.add_zero] at hfail; rw [hfail] at hc; cases hc
        | succ j' =>
          refine Or.inr ⟨j', ?_, ?_⟩
          · simpa using hj
          · have : i + 1 + j' = i + (j' + 1) := by omega
            rw [this]; exact hfail
    | none =>
      apply ih (i + 1)
      exact Or.inl rfl

/-- Appending on the left of a string is injective. -/
theorem string_append_left_cancel {a b c : String} (h : a ++ b = a ++ c) :
    b = c := by
  have hd := congrArg String.data h
  simp only [String.data_append] at hd
  exact String.ext (List.append_cancel_left hd)

/-- C1: variant generation submits one call per caption in list order;
a failed caption records an error but the loop continues, and the final
variant collection is exactly the successful outputs in request order
with failed captions omitted. -/
theorem generateVariants_successes_in_order (st : AppState)
    (actions : List String) (oracle : Nat → GenResponse)
    (hai : st.aiReady = true) (him : st.uploadedImage.isSome = true) :
    ((generateVariants st actions oracle).variants.map
        (fun v => (v.label, v.uri)) =
      actions.enum.filterMap (fun p =>
        (callResult (oracle p.1)).map (fun uri => (p.2, uri)))) ∧
    ((∃ j, j < actions.length ∧ callResult (oracle j) = none) →
      (generateVariants st actions oracle).error.isSome = true) := by
  unfold generateVariants
  rw [hai, him]
  constructor
  · simpa using runVariantLoop_gen (variantPrompt st) oracle actions 0
      ⟨[], none, st.loadingMessage⟩
  · intro h
    apply runVariantLoop_error (variantPrompt st) oracle actions 0
      ⟨[], none, st.loadingMessage⟩
    right
    simpa using h

/-- C1 witness: of three requested captions whose second call fails, the
collection holds exactly the first and third outputs, in order, and an
error is recorded. -/
theorem generateVariants_successes_in_order_witness :
    ((generateVariants mkState ["開心", "生氣", "哭哭"] failSecondOracle).variants.map
        (fun v => (v.label, v.uri)) =
      [("開心", "data:image/png;base64,D0"), ("哭哭", "data:image/png;base64,D2")]) ∧
    (generateVariants mkState ["開心", "生氣", "哭哭"] failSecondOracle).error.isSome
      = true := by
  have h := generateVariants_successes_in_order mkState ["開心", "生氣", "哭哭"]
    failSecondOracle rfl rfl
  refine ⟨?_, h.2 ⟨1, by decide, by decide⟩⟩
  rw [h.1]
  decide

/-- C2 counterexample: from `variants_generated` the always-rendered
primary button can still trigger `handleGenerateBase`, and a successful
call moves the workflow backward to `base_generated`. -/
theorem workflow_backward_move_cex :
    stAfterVariants.appStep = AppStep.variants_generated ∧
    canTriggerGenerateBase stAfterVariants = true ∧
    (handleGenerateBase stAfterVariants (okPngResp "CCC")).appStep =
      AppStep.base_generated := by decide

/-- C2 amended: the workflow state takes only the three enumerated
values; a successful base generation always lands in `base_generated`
(even from `variants_generated`, so a backward move is possible) and a
failed one leaves the step unchanged; variant generation always ends in
`variants_generated` whether or not calls fail; a new upload resets to
`upload`, and no generation handler ever produces `upload`. -/
theorem workflow_steps_amended :
    (∀ (st : AppState) (resp : GenResponse) (uri : String),
      (baseCall st resp).1 = some uri →
        (handleGenerateBase st resp).appStep = AppStep.base_generated ∧
        (handleGenerateBase st resp).baseSticker = some uri) ∧
    (∀ (st : AppState) (resp : GenResponse),
      (baseCall st resp).1 = none →
        (handleGenerateBase st resp).appStep = st.appStep ∧
        (handleGenerateBase st resp).baseSticker = st.baseSticker) ∧
    (∀ (st : AppState) (actions : List String) (oracle : Nat → GenResponse),
      (generateVariants st actions oracle).appStep = AppStep.variants_generated) ∧
    (∀ (st : AppState) (img : UploadedImage),
      (handleFileChangeSuccess st img).appStep = AppStep.upload) ∧
    (∀ (st : AppState) (resp : GenResponse),
      st.appStep ≠ AppStep.upload →
        (handleGenerateBase st resp).appStep ≠ AppStep.upload) ∧
    (∀ (st : AppState) (oracle : Nat → GenResponse),
      (handleGenerateCustomVariants st oracle).appStep = AppStep.variants_generated ∨
        (handleGenerateCustomVariants st oracle).appStep = st.appStep) := by
  refine ⟨?_, ?_, ?_, ?_, ?_, ?_⟩
  · intro st resp uri h
    simp only [handleGenerateBase]
    rw [h]
    exact ⟨rfl, rfl⟩
  · intro st resp h
    simp only [handleGenerateBase]
    rw [h]
    exact ⟨rfl, rfl⟩
  · intro st actions oracle
    rfl
  · intro st img
    rfl
  · intro st resp h
    simp only [handleGenerateBase]
    cases hr : (baseCall st resp).1 with
    | none => exact h
    | some uri => simp
  · intro st oracle
    unfold handleGenerateCustomVariants
    by_cases h : (parseCustomVariants st.customVariantsPrompt).isEmpty
    · rw [if_pos h]; right; rfl
    · rw [if_neg h]; left; rfl

/-- C2 amended witness: a successful base generation from the upload
step lands in `base_generated`, and a failed one from
`variants_generated` stays there. -/
theorem workflow_steps_amended_witness :
    (handleGenerateBase mkState (okPngResp "CCC")).appStep =
      AppStep.base_generated ∧
    (handleGenerateBase stAfterVariants (.error "boom")).appStep =
      stAfterVariants.appStep := by
  constructor
  · exact (workflow_steps_amended.1 mkState (okPngResp "CCC")
      "data:image/png;base64,CCC" (by decide)).1
  · exact (workflow_steps_amended.2.1 stAfterVariants (.error "boom")
      (by decide)).1

/-- C3: with client and image present, the generation client returns the
first inline-data part reassembled as `data:<mime>;base64,<data>`; a
response with no inline part surfaces the `no image returned` message
(wrapped, like every thrown error, in the `generation failed` prefix); a
failed call surfaces the `generation failed` message carrying the
underlying error text, distinct from the no-image message whenever the
underlying text differs from it. -/
theorem generateImage_client_contract (parts : List RespPart)
    (mt d m p : String) :
    (firstInlineData parts = some (mt, d) →
      generateImage true true p (.ok parts) =
        (some ("data:" ++ mt ++ ";base64," ++ d), none)) ∧
    (firstInlineData parts = none →
      generateImage true true p (.ok parts) =
        (none, some ("圖片生成失敗: " ++ "API 未返回圖片。"))) ∧
    (generateImage true true p (.error m) =
      (none, some ("圖片生成失敗: " ++ m))) ∧
    (m ≠ "API 未返回圖片。" →
      (generateImage true true p (.ok parts)).2 ≠
        (generateImage true true p (.error m)).2) := by
  refine ⟨?_, ?_, rfl, ?_⟩
  · intro h
    simp [generateImage, h]
  · intro h
    simp [generateImage, h]
  · intro hm
    cases hf : firstInlineData parts with
    | some md =>
      simp [generateImage, hf]
    | none =>
      simp only [generateImage, hf]
      intro hcontra
      apply hm
      have h2 : some ("圖片生成失敗: " ++ "API 未返回圖片。") =
          some ("圖片生成失敗: " ++ m) := hcontra
      exact (string_append_left_cancel (Option.some.inj h2)).symm

/-- C3 witness: the three behaviours at concrete responses, and the two
failure messages differing for a network error. -/
theorem generateImage_client_contract_witness :
    (generateImage true true "p" (.ok [⟨some ("image/png", "AAA")⟩]) =
      (some ("data:" ++ "image/png" ++ ";base64," ++ "AAA"), none)) ∧
    (generateImage true true "p" (.ok [⟨none⟩]) =
      (none, some ("圖片生成失敗: " ++ "API 未返回圖片。"))) ∧
    (generateImage true true "p" (.error "network down") =
      (none, some ("圖片生成失敗: " ++ "network down"))) ∧
    (generateImage true true "p" (.ok [⟨none⟩])).2 ≠
      (generateImage true true "p" (.error "network down")).2 := by
  refine ⟨?_, ?_, ?_, ?_⟩
  · exact (generateImage_client_contract [⟨some ("image/png", "AAA")⟩]
      "image/png" "AAA" "network down" "p").1 rfl
  · exact (generateImage_client_contract [⟨none⟩]
      "image/png" "AAA" "network down" "p").2.1 rfl
  · exact (generateImage_client_contract [⟨none⟩]
      "image/png" "AAA" "network down" "p").2.2.1
  · exact (generateImage_client_contract [⟨none⟩]
      "image/png" "AAA" "network down" "p").2.2.2 (by decide)

/-- C4 counterexample: at the same settings, the base prompt carries the
strength percentage while the variant prompt never mentions it, and the
description lead-in differs between the two templates — so the templates
are not identical up to subject-versus-action. -/
theorem prompt_templates_differ_cex :
    hasInfix "Style strength should be around 70%.".toList
      (basePrompt mkState).toList = true ∧
    hasInfix "70".toList (variantPrompt mkState "跑步").toList = false ∧
    hasInfix "Incorporate this description".toList
      (basePrompt { mkState with userPrompt := "wearing a hat" }).toList = true ∧
    hasInfix "Incorporate this description".toList
      (variantPrompt { mkState with userPrompt := "wearing a hat" } "跑步").toList
      = false ∧
    hasInfix "Incorporate this general theme".toList
      (variantPrompt { mkState with userPrompt := "wearing a hat" } "跑步").toList
      = true := by decide

/-- C4 amended: both prompts deterministically interpolate the selected
or custom style label and end with the same two optional consistency
clauses, but the strength percentage occurs only in the base template
(the variant prompt is independent of the strength setting), and the
description lead-in wording differs between the templates. -/
theorem prompt_templates_amended :
    (∀ (st : AppState) (a : String) (n : Nat),
      variantPrompt { st with styleStrength := n } a = variantPrompt st a) ∧
    (∀ st : AppState, ∃ x y : String,
      basePrompt st =
        x ++ (" Style strength should be around " ++
          toString st.styleStrength ++ "%. ") ++ y) ∧
    (∀ (st : AppState) (a : String), ∃ x₁ y₁ x₂ y₂ : String,
      basePrompt st = x₁ ++ stylePrompt st ++ y₁ ∧
      variantPrompt st a = x₂ ++ stylePrompt st ++ y₂) ∧
    (∀ (st : AppState) (a : String), ∃ h₁ h₂ : String,
      basePrompt st = h₁ ++ consistencyClauses st ∧
      variantPrompt st a = h₂ ++ consistencyClauses st) := by
  refine ⟨fun st a n => rfl, ?_, ?_, ?_⟩
  · intro st
    refine ⟨"Generate a sticker with a transparent background. The subject should be based on the provided image, but rendered in a \"" ++
      stylePrompt st ++ "\" style. " ++
      (if st.userPrompt ≠ "" then
        "Incorporate this description: \"" ++ st.userPrompt ++ "\"." else ""),
      (if st.lockCharacter then "Maintain character consistency." else "") ++ " " ++
      (if st.faceConsistency then "Pay close attention to face consistency." else ""), ?_⟩
    simp [basePrompt, String.append_assoc]
  · intro st a
    refine ⟨"Generate a sticker with a transparent background. The subject should be based on the provided image, but rendered in a \"",
      "\" style. " ++
      (if st.userPrompt ≠ "" then
        "Incorporate this description: \"" ++ st.userPrompt ++ "\"." else "") ++
      " Style strength should be around " ++ toString st.styleStrength ++ "%. " ++
      (if st.lockCharacter then "Maintain character consistency." else "") ++ " " ++
      (if st.faceConsistency then "Pay close attention to face consistency." else ""),
      "Based on the character in the image, create a sticker of them showing the emotion or action: \"" ++
      a ++ "\". The style should be \"",
      "\" with a transparent background. " ++
      (if st.userPrompt ≠ "" then
        "Incorporate this general theme: \"" ++ st.userPrompt ++ "\"." else "") ++
      " " ++
      (if st.lockCharacter then "Maintain character consistency." else "") ++ " " ++
      (if st.faceConsistency then "Pay close attention to face consistency." else ""),
      ?_, ?_⟩ <;>
      simp [basePrompt, variantPrompt, String.append_assoc]
  · intro st a
    refine ⟨"Generate a sticker with a transparent background. The subject should be based on the provided image, but rendered in a \"" ++
      stylePrompt st ++ "\" style. " ++
      (if st.userPrompt ≠ "" then
        "Incorporate this description: \"" ++ st.userPrompt ++ "\"." else "") ++
      " Style strength should be around " ++ toString st.styleStrength ++ "%. ",
      "Based on the character in the image, create a sticker of them showing the emotion or action: \"" ++
      a ++ "\". The style should be \"" ++ stylePrompt st ++
      "\" with a transparent background. " ++
      (if st.userPrompt ≠ "" then
        "Incorporate this general theme: \"" ++ st.userPrompt ++ "\"." else "") ++
      " ",
      ?_, ?_⟩ <;>
      simp [basePrompt, variantPrompt, consistencyClauses, String.append_assoc]

/-- C5: the custom-variants text parses by splitting on commas, trimming
each entry, dropping empty entries and truncating to the first 12 in
order: `"yes, no, ok"` yields exactly those three requests, thirteen
entries truncate to twelve, the result never exceeds
`MAX_CUSTOM_VARIANTS`, is an order-preserving sublist of the trimmed
split, and contains no empty entry. -/
theorem parseCustomVariants_contract :
    parseCustomVariants "yes, no, ok" = ["yes", "no", "ok"] ∧
    parseCustomVariants "a1,a2,a3,a4,a5,a6,a7,a8,a9,a10,a11,a12,a13" =
      ["a1", "a2", "a3", "a4", "a5", "a6", "a7", "a8", "a9", "a10", "a11",
       "a12"] ∧
    (∀ s : String,
      (parseCustomVariants s).length ≤ MAX_CUSTOM_VARIANTS) ∧
    (∀ s : String,
      List.Sublist (parseCustomVariants s)
        ((splitComma s.toList).map (fun l => (trimChars l).asString))) ∧
    (∀ s : String, "" ∉ parseCustomVariants s) := by
  refine ⟨by decide, by decide, ?_, ?_, ?_⟩
  · intro s
    simp [parseCustomVariants, List.length_take]
  · intro s
    exact (List.take_sublist _ _).trans (List.filter_sublist _)
  · intro s h
    have h1 : "" ∈ ((splitComma s.toList).map
        (fun l => (trimChars l).asString)).filter (fun t => t ≠ "") :=
      List.mem_of_mem_take h
    have h2 := (List.mem_filter.mp h1).2
    simp at h2

/-- C6: from every prior state, a successful upload resets the workflow
step to `upload`, clears the base sticker and the variants, stores the
new image and clears the error. -/
theorem upload_resets_workflow (st : AppState) (img : UploadedImage) :
    (handleFileChangeSuccess st img).appStep = AppStep.upload ∧
    (handleFileChangeSuccess st img).baseSticker = none ∧
    (handleFileChangeSuccess st img).variants = [] ∧
    (handleFileChangeSuccess st img).uploadedImage = some img ∧
    (handleFileChangeSuccess st img).error = none :=
  ⟨rfl, rfl, rfl, rfl, rfl⟩

/-- C7 counterexample: in a `base_generated` state whose consent box was
unchecked again, the primary button is disabled yet the regenerate
button still triggers `handleGenerateBase`, so the action is not
disabled from every point in the UI. -/
theorem generate_base_gating_cex :
    stConsentRevoked.consentChecked = false ∧
    isGenerateButtonDisabled stConsentRevoked = true ∧
    canTriggerGenerateBase stConsentRevoked = true := by decide

/-- C7 amended: while a generation is in progress no point in the UI can
trigger the base generation; whenever the primary button's disabled
condition holds and no base sticker exists (or the step is not
`base_generated`, where the ungated regenerate button lives), the action
cannot be triggered at all. -/
theorem generate_base_gating_amended :
    (∀ st : AppState, st.isLoading = true →
      canTriggerGenerateBase st = false) ∧
    (∀ st : AppState, isGenerateButtonDisabled st = true →
      st.baseSticker = none → canTriggerGenerateBase st = false) ∧
    (∀ st : AppState, isGenerateButtonDisabled st = true →
      st.appStep ≠ AppStep.base_generated →
      canTriggerGenerateBase st = false) := by
  refine ⟨?_, ?_, ?_⟩
  · intro st h
    simp [canTriggerGenerateBase, isGenerateButtonDisabled,
      regenerateButtonShown, h]
  · intro st h hb
    simp [canTriggerGenerateBase, regenerateButtonShown, h, hb]
  · intro st h hs
    simp [canTriggerGenerateBase, regenerateButtonShown, h, hs]

/-- C7 amended witness: a loading state, a state with no image, and a
pre-base state without consent each leave the action untriggerable. -/
theorem generate_base_gating_amended_witness :
    canTriggerGenerateBase { mkState with isLoading := true } = false ∧
    canTriggerGenerateBase { mkState with uploadedImage := none } = false ∧
    canTriggerGenerateBase { mkState with consentChecked := false } = false := by
  refine ⟨?_, ?_, ?_⟩
  · exact generate_base_gating_amended.1 _ rfl
  · exact generate_base_gating_amended.2.1 _ (by decide) rfl
  · exact generate_base_gating_amended.2.2 _ (by decide) (by decide)

/-- C8: with style `custom`, the exported metadata document's
`customStyle` field holds the custom style text, its `style` field holds
`custom`, and the document carries the model identifier and the
timestamp. -/
theorem metadata_custom_style_exported (st : AppState) (ts : String)
    (h : st.style = "custom") :
    (metadataFields st ts).lookup "customStyle" =
      some (MetaVal.str st.customStyle) ∧
    (metadataFields st ts).lookup "style" = some (MetaVal.str "custom") ∧
    (metadataFields st ts).lookup "model" = some (MetaVal.str API_MODEL) ∧
    (metadataFields st ts).lookup "timestamp" = some (MetaVal.str ts) := by
  unfold metadataFields
  rw [if_pos h, h]
  exact ⟨rfl, rfl, rfl, rfl⟩

/-- C8 witness: style `custom` with custom style `ink wash` exports
`customStyle = "ink wash"` and `style = "custom"`. -/
theorem metadata_custom_style_exported_witness :
    (metadataFields stInkWash "2025-01-01T00:00:00.000Z").lookup "customStyle" =
      some (MetaVal.str "ink wash") ∧
    (metadataFields stInkWash "2025-01-01T00:00:00.000Z").lookup "style" =
      some (MetaVal.str "custom") := by
  have h := metadata_custom_style_exported stInkWash
    "2025-01-01T00:00:00.000Z" rfl
  exact ⟨h.1, h.2.1⟩

/-- C9: with any style other than `custom`, the exported metadata
document has no `customStyle` field at all, regardless of what was typed
into the custom-style input. -/
theorem metadata_no_customStyle_for_presets (st : AppState) (ts : String)
    (h : st.style ≠ "custom") :
    (metadataFields st ts).lookup "customStyle" = none := by
  unfold metadataFields
  rw [if_neg h]
  rfl

/-- C9 witness: with style `cute` and custom-style text `ink wash`
typed, the exported document has no `customStyle` field. -/
theorem metadata_no_customStyle_for_presets_witness :
    (metadataFields stPresetWithText "2025-01-01T00:00:00.000Z").lookup
      "customStyle" = none ∧
    stPresetWithText.customStyle = "ink wash" :=
  ⟨metadata_no_customStyle_for_presets stPresetWithText
    "2025-01-01T00:00:00.000Z" (by decide), rfl⟩

/-- C10: when the custom-variants text parses to no request, the handler
records an error and returns before any generation call: variants, base
sticker, workflow step and loading flag are all unchanged. -/
theorem empty_custom_variants_noop (st : AppState)
    (oracle : Nat → GenResponse)
    (h : parseCustomVariants st.customVariantsPrompt = []) :
    (handleGenerateCustomVariants st oracle).error =
      some "請輸入至少一個有效的情境。" ∧
    (handleGenerateCustomVariants st oracle).variants = st.variants ∧
    (handleGenerateCustomVariants st oracle).baseSticker = st.baseSticker ∧
    (handleGenerateCustomVariants st oracle).appStep = st.appStep ∧
    (handleGenerateCustomVariants st oracle).isLoading = st.isLoading := by
  unfold handleGenerateCustomVariants
  rw [h]
  exact ⟨rfl, rfl, rfl, rfl, rfl⟩

/-- C10 witness: a textarea of commas and whitespace records the error
and leaves variants and the workflow step unchanged. -/
theorem empty_custom_variants_noop_witness :
    (handleGenerateCustomVariants stBlankVariants (fun _ => .error "x")).error =
      some "請輸入至少一個有效的情境。" ∧
    (handleGenerateCustomVariants stBlankVariants (fun _ => .error "x")).variants =
      stBlankVariants.variants ∧
    (handleGenerateCustomVariants stBlankVariants (fun _ => .error "x")).appStep =
      stBlankVariants.appStep := by
  have h := empty_custom_variants_noop stBlankVariants (fun _ => .error "x")
    (by decide)
  exact ⟨h.1, h.2.1, h.2.2.2.1⟩
